import Mathlib

/-!
CRIMSON-REDLINE — verification of the player-progression and event-resolution core

Shallow embedding of the Rust sources under `src/` of the CRIMSON-REDLINE
repository (a terminal hacking-simulator game), restricted to the parts the
specification's claims are about:

* `src/game/reputation.rs` — `ReputationManager`, `ReputationLevel`;
* `src/game/state.rs`      — `GameState` (heat, credits, reputation mutators);
* `src/game/mod.rs`        — `Mission` / `Objective` tracking;
* `src/game/events.rs`     — `EventManager` and `handle_choice` resolution.

Modelling conventions:

* Rust `i32` is modelled as `ℤ` (the values reachable in the claims stay far
  from the `i32` boundaries; the `as i32` float-to-int cast is modelled with
  its saturating behaviour made explicit).
* Rust `f32` is modelled as `ℚ`.  Every `f32` literal appearing in the
  modelled code (`100.0`, `1.5`, `0.1`, …) except `1.1` is exactly
  representable in `f32`; the streak multiplier `1.1f32` is modelled by its
  exact `f32` value `9227469/2^23`.  Counterexample inputs are chosen so that
  the `f32` computation on them is exact, making the rational model faithful
  at every concrete input used.
* Rust `u32` is modelled as `ℕ` (with `saturating_add` modelled explicitly).
* Wall-clock time (`chrono`) cannot be embedded; everywhere the code branches
  on elapsed time the model takes the branch outcome as an explicit `Bool`
  oracle argument (`withinWindow`), and `last_action` is modelled as
  `Option Unit` (presence only).  Random draws (`rand::thread_rng`) are
  likewise passed in as an explicit roll argument.
* Terminal printing (`ColorScheme::print_*`) and `tokio::time::sleep` do not
  touch the game state and are dropped; `Result` returns that are always
  `Ok(())` in the modelled paths are dropped with them.
-/

namespace CrimsonRedline

/-- Truncation of a rational toward zero, then saturation into the `i32`
range: the behaviour of Rust's `expr as i32` cast on a (finite) `f32`. -/
def f32_as_i32 (q : ℚ) : ℤ :=
  let t : ℤ := if 0 ≤ q then Int.floor q else -(Int.floor (-q))
  max (-2147483648) (min 2147483647 t)

/-- Rounding half away from zero: the behaviour of Rust's `f32::round`,
used only to state the spec's claimed `round(base * multiplier)` formula. -/
def rustRound (q : ℚ) : ℤ :=
  if 0 ≤ q then Int.floor (q + 1/2) else -(Int.floor (-q + 1/2))

/-! ## `src/game/reputation.rs` — `ReputationLevel` -/

/-- The 11 reputation tiers of `enum ReputationLevel`. -/
inductive ReputationLevel where
  | Nobody          -- 0-49
  | Wannabe         -- 50-149
  | ScriptKiddie    -- 150-299
  | Amateur         -- 300-499
  | Competent       -- 500-749
  | Skilled         -- 750-999
  | Expert          -- 1000-1499
  | Master          -- 1500-1999
  | Elite           -- 2000-2999
  | Legendary       -- 3000-4999
  | Mythical        -- 5000+
deriving DecidableEq, Repr, Fintype

/-- Position of a tier in the 11-tier order (Nobody lowest, Mythical highest). -/
def ReputationLevel.idx : ReputationLevel → ℕ
  | .Nobody => 0
  | .Wannabe => 1
  | .ScriptKiddie => 2
  | .Amateur => 3
  | .Competent => 4
  | .Skilled => 5
  | .Expert => 6
  | .Master => 7
  | .Elite => 8
  | .Legendary => 9
  | .Mythical => 10

/-- `ReputationLevel::from_reputation`: the Rust `match` on `i32` range
patterns `0..=49`, `50..=149`, …, `3000..=4999`, with catch-all `_ =>
Mythical`.  The arms are tried in order, exactly as `match` does. -/
def ReputationLevel.from_reputation (reputation : ℤ) : ReputationLevel :=
  if 0 ≤ reputation ∧ reputation ≤ 49 then .Nobody
  else if 50 ≤ reputation ∧ reputation ≤ 149 then .Wannabe
  else if 150 ≤ reputation ∧ reputation ≤ 299 then .ScriptKiddie
  else if 300 ≤ reputation ∧ reputation ≤ 499 then .Amateur
  else if 500 ≤ reputation ∧ reputation ≤ 749 then .Competent
  else if 750 ≤ reputation ∧ reputation ≤ 999 then .Skilled
  else if 1000 ≤ reputation ∧ reputation ≤ 1499 then .Expert
  else if 1500 ≤ reputation ∧ reputation ≤ 1999 then .Master
  else if 2000 ≤ reputation ∧ reputation ≤ 2999 then .Elite
  else if 3000 ≤ reputation ∧ reputation ≤ 4999 then .Legendary
  else .Mythical

/-- `ReputationLevel::reputation_requirement`. -/
def ReputationLevel.reputation_requirement : ReputationLevel → ℤ
  | .Nobody => 0
  | .Wannabe => 50
  | .ScriptKiddie => 150
  | .Amateur => 300
  | .Competent => 500
  | .Skilled => 750
  | .Expert => 1000
  | .Master => 1500
  | .Elite => 2000
  | .Legendary => 3000
  | .Mythical => 5000

/-- `ReputationLevel::next_level_requirement`. -/
def ReputationLevel.next_level_requirement : ReputationLevel → Option ℤ
  | .Nobody => some 50
  | .Wannabe => some 150
  | .ScriptKiddie => some 300
  | .Amateur => some 500
  | .Competent => some 750
  | .Skilled => some 1000
  | .Expert => some 1500
  | .Master => some 2000
  | .Elite => some 3000
  | .Legendary => some 5000
  | .Mythical => none

/-! ## `src/game/reputation.rs` — `ReputationManager`

`last_action` is a `chrono` timestamp in the source; the model keeps only its
presence (`Option Unit`).  `update_streak` branches on whether the elapsed
time since `last_action` is below 300 seconds; the model receives that branch
outcome as the `withinWindow` argument.  The multiplier table's `1.1f32`
literal is modelled by its exact `f32` value `9227469/2^23`; the other
entries (`1.0`, `1.25`, `1.5`, `1.75`, `2.0`) are exactly representable.
The `f32` multiplication `base_amount as f32 * self.multiplier` is modelled
as exact rational multiplication; it agrees with `f32` arithmetic whenever
`|base_amount| ≤ 2^24` and the multiplier is one of the exactly-representable
entries, which covers every concrete input used below. -/

structure ReputationManager where
  current_reputation : ℤ
  lifetime_reputation : ℤ
  level : ReputationLevel
  multiplier : ℚ
  streak : ℕ
  last_action : Option Unit
deriving DecidableEq, Repr

/-- `ReputationManager::new`. -/
def ReputationManager.new (starting_reputation : ℤ) : ReputationManager :=
  { current_reputation := starting_reputation
    lifetime_reputation := starting_reputation
    level := ReputationLevel.from_reputation starting_reputation
    multiplier := 1
    streak := 0
    last_action := none }

/-- The multiplier step table of `update_streak`'s `match self.streak`
(`0..=4 => 1.0, 5..=9 => 1.1, 10..=19 => 1.25, 20..=29 => 1.5,
30..=49 => 1.75, _ => 2.0`). -/
def multiplier_from_streak (streak : ℕ) : ℚ :=
  if streak ≤ 4 then 1
  else if streak ≤ 9 then 9227469 / 8388608      -- exact f32 value of 1.1
  else if streak ≤ 19 then 5 / 4
  else if streak ≤ 29 then 3 / 2
  else if streak ≤ 49 then 7 / 4
  else 2

/-- `ReputationManager::reset_streak`. -/
def ReputationManager.reset_streak (m : ReputationManager) : ReputationManager :=
  { m with streak := 0, multiplier := 1 }

/-- `ReputationManager::update_streak`.  If a previous action exists and lies
within the 300-second window (`withinWindow`), the streak is incremented and
the multiplier recomputed from the step table; otherwise the streak resets.
`last_action` is set in every branch. -/
def ReputationManager.update_streak (m : ReputationManager) (withinWindow : Bool) :
    ReputationManager :=
  match m.last_action with
  | some _ =>
    if withinWindow then
      { m with streak := m.streak + 1
               multiplier := multiplier_from_streak (m.streak + 1)
               last_action := some () }
    else
      { m.reset_streak with last_action := some () }
  | none => { m with last_action := some () }

/-- `ReputationManager::add_reputation`.  `final_amount` is the Rust
expression `(base_amount as f32 * self.multiplier) as i32` — an `as i32`
cast, i.e. truncation toward zero (with saturation), of the product.  The
function returns the mutated manager together with `final_amount`. -/
def ReputationManager.add_reputation (m : ReputationManager) (base_amount : ℤ)
    (withinWindow : Bool) : ReputationManager × ℤ :=
  let final_amount := f32_as_i32 ((base_amount : ℚ) * m.multiplier)
  let m := { m with current_reputation := m.current_reputation + final_amount }
  let m := if 0 < final_amount
           then { m with lifetime_reputation := m.lifetime_reputation + final_amount }
           else m
  let m := { m with level := ReputationLevel.from_reputation m.current_reputation }
  (m.update_streak withinWindow, final_amount)

/-- `ReputationManager::remove_reputation`:
`self.current_reputation = (self.current_reputation - amount).max(0)`, then
level recompute and streak reset. -/
def ReputationManager.remove_reputation (m : ReputationManager) (amount : ℤ) :
    ReputationManager :=
  let m := { m with current_reputation := max (m.current_reputation - amount) 0 }
  let m := { m with level := ReputationLevel.from_reputation m.current_reputation }
  m.reset_streak

/-- One call of the C1 claim's call sequences: either
`add_reputation(base)` (with its time-window oracle) or
`remove_reputation(amount)`. -/
inductive RepCall where
  | add (base : ℤ) (withinWindow : Bool)
  | remove (amount : ℤ)
deriving DecidableEq, Repr

/-- Apply one call to a `ReputationManager`. -/
def RepCall.apply (m : ReputationManager) : RepCall → ReputationManager
  | .add base w => (m.add_reputation base w).1
  | .remove amount => m.remove_reputation amount

/-! ## `src/game/state.rs` — `GameState`

The model keeps exactly the fields that the operations verified here read or
write (`reputation`, `heat_level`, `credits`, `unlocked_tools`,
`discovered_exploits`, plus the immutable `username`).  The remaining fields
of the Rust struct (hack/scan counters, mission lists, network map,
`time_played`, `session_start`) are neither read nor written by any operation
modelled in this file, and the time-valued ones cannot be embedded. -/

structure GameState where
  username : String
  reputation : ℤ
  heat_level : ℚ
  credits : ℤ
  unlocked_tools : List String
  discovered_exploits : List String
deriving DecidableEq, Repr

/-- `GameState::new` (restricted to the modelled fields). -/
def GameState.new (username : String) (starting_reputation : ℤ) : GameState :=
  { username := username
    reputation := starting_reputation
    heat_level := 0
    credits := 1000
    unlocked_tools := ["scan", "decrypt"]
    discovered_exploits := [] }

/-- `GameState::add_reputation`: `self.reputation = (self.reputation + amount).max(0)`. -/
def GameState.add_reputation (gs : GameState) (amount : ℤ) : GameState :=
  { gs with reputation := max (gs.reputation + amount) 0 }

/-- `GameState::increase_heat`: `self.heat_level = (self.heat_level + amount).min(100.0)`. -/
def GameState.increase_heat (gs : GameState) (amount : ℚ) : GameState :=
  { gs with heat_level := min (gs.heat_level + amount) 100 }

/-- `GameState::decrease_heat`: `self.heat_level = (self.heat_level - amount).max(0.0)`. -/
def GameState.decrease_heat (gs : GameState) (amount : ℚ) : GameState :=
  { gs with heat_level := max (gs.heat_level - amount) 0 }

/-- `GameState::add_credits`: `self.credits = (self.credits + amount).max(0)`. -/
def GameState.add_credits (gs : GameState) (amount : ℤ) : GameState :=
  { gs with credits := max (gs.credits + amount) 0 }

/-- `GameState::spend_credits`, returning the updated state together with the
Rust function's `bool` result. -/
def GameState.spend_credits (gs : GameState) (amount : ℤ) : GameState × Bool :=
  if gs.credits ≥ amount then ({ gs with credits := gs.credits - amount }, true)
  else (gs, false)

/-- `GameState::unlock_tool`: insert if not already present. -/
def GameState.unlock_tool (gs : GameState) (tool : String) : GameState :=
  if gs.unlocked_tools.contains tool then gs
  else { gs with unlocked_tools := gs.unlocked_tools ++ [tool] }

/-- `GameState::discover_exploit`: insert if not already present. -/
def GameState.discover_exploit (gs : GameState) (exploit : String) : GameState :=
  if gs.discovered_exploits.contains exploit then gs
  else { gs with discovered_exploits := gs.discovered_exploits ++ [exploit] }

/-! ## `src/game/mod.rs` — `Mission` / `Objective` -/

/-- `enum MissionDifficulty`. -/
inductive MissionDifficulty where
  | Trivial | Easy | Medium | Hard | Extreme | Impossible
deriving DecidableEq, Repr

/-- `struct Objective` (`progress`/`required` are `u32`). -/
structure Objective where
  id : String
  description : String
  target : Option String
  progress : ℕ
  required : ℕ
  is_completed : Bool
deriving DecidableEq, Repr

/-- `struct Mission` (`time_limit` in whole seconds, as constructed). -/
structure Mission where
  id : String
  name : String
  description : String
  objectives : List Objective
  reward_reputation : ℤ
  reward_credits : ℤ
  difficulty : MissionDifficulty
  time_limit : Option ℕ
  is_completed : Bool
  is_active : Bool
deriving DecidableEq, Repr

/-- `Mission::new`. -/
def Mission.new (id name description : String) (difficulty : MissionDifficulty)
    (reward_reputation : ℤ) : Mission :=
  { id := id
    name := name
    description := description
    objectives := []
    reward_reputation := reward_reputation
    reward_credits := reward_reputation * 10
    difficulty := difficulty
    time_limit := none
    is_completed := false
    is_active := false }

/-- `u32::saturating_add`. -/
def u32_saturating_add (a b : ℕ) : ℕ :=
  min (a + b) 4294967295

/-- The mutation `update_objective` performs on the objective found by
`iter_mut().find(...)`: saturating-add to `progress`, then mark completed if
`progress >= required` (never unmarks). -/
def Objective.apply_progress (o : Objective) (progress : ℕ) : Objective :=
  let o := { o with progress := u32_saturating_add o.progress progress }
  if o.progress ≥ o.required then { o with is_completed := true } else o

/-- Replace the first element satisfying `p` by its image under `f`
(the effect of `iter_mut().find(p)` followed by a mutation). -/
def updateFirst (p : α → Bool) (f : α → α) : List α → List α
  | [] => []
  | x :: xs => if p x then f x :: xs else x :: updateFirst p f xs

/-- `Mission::update_objective`: mutate the first objective whose id matches
(if any), then — unconditionally — mark the mission completed when all
objectives are completed (vacuously true for an empty list). -/
def Mission.update_objective (m : Mission) (objective_id : String) (progress : ℕ) :
    Mission :=
  let objectives :=
    updateFirst (fun o => o.id == objective_id) (fun o => o.apply_progress progress)
      m.objectives
  let m := { m with objectives := objectives }
  if m.objectives.all (fun o => o.is_completed) then { m with is_completed := true }
  else m

/-- `Mission::get_completion_percentage`. -/
def Mission.get_completion_percentage (m : Mission) : ℚ :=
  if m.objectives.isEmpty then 0
  else
    let total_progress : ℕ := (m.objectives.map (fun o => min o.progress o.required)).sum
    let total_required : ℕ := (m.objectives.map (fun o => o.required)).sum
    if total_required = 0 then 0
    else ((total_progress : ℚ) / (total_required : ℚ)) * 100

/-! ## `src/game/events.rs` — `EventManager` and choice resolution

`handle_choice` is `async` and prints through the `ColorScheme`, but every
modelled path returns `Ok(())`; the model returns the updated
`(EventManager, GameState)` pair.  The random draws inside the `Special`
sub-resolutions (`rng.gen::<f32>()`, compared against `0.5`, `0.4`, `0.3`)
are modelled by an explicit `roll : ℚ` argument; the thresholds `0.4` and
`0.3` are modelled by their exact `f32` values.  `last_event_time` (a
`chrono` timestamp never read by the resolution logic) is omitted from the
manager. -/

/-- `enum EventType`. -/
inductive EventType where
  | Opportunity | Threat | Neutral
deriving DecidableEq, Repr

/-- `enum EventSeverity`. -/
inductive EventSeverity where
  | Low | Medium | High | Critical
deriving DecidableEq, Repr

/-- `enum EventOutcome`. -/
inductive EventOutcome where
  | GainCredits (amount : ℤ)
  | GainReputation (amount : ℤ)
  | ReduceHeat (amount : ℚ)
  | IncreaseHeat (amount : ℚ)
  | UnlockContent (content : String)
  | MaintainAccess
  | SafeExit
  | Special (action : String)
deriving DecidableEq, Repr

/-- `enum EventCost` (`Time` in seconds). -/
inductive EventCost where
  | Credits (amount : ℤ)
  | Reputation (amount : ℤ)
  | Heat (amount : ℚ)
  | Time (seconds : ℕ)
deriving DecidableEq, Repr

/-- `struct EventChoice`. -/
structure EventChoice where
  label : String
  outcome : EventOutcome
  cost : Option EventCost
deriving DecidableEq, Repr

/-- `struct RandomEvent` (`time_limit` in whole seconds, as constructed). -/
structure RandomEvent where
  id : String
  title : String
  description : String
  event_type : EventType
  severity : EventSeverity
  choices : List EventChoice
  time_limit : Option ℕ
deriving DecidableEq, Repr

/-- `struct EventManager`, without the never-read `last_event_time`. -/
structure EventManager where
  active_events : List RandomEvent
  event_history : List RandomEvent
  event_chance : ℚ
deriving DecidableEq, Repr

/-- `EventManager::new` (`event_chance = 0.1`, exactly the f32 value
`13421773/2^27`). -/
def EventManager.new : EventManager :=
  { active_events := []
    event_history := []
    event_chance := 13421773 / 134217728 }

/-- `EventManager::handle_special_outcome` (takes `&self`, so it never
changes the manager; only the game state).  The three named sub-resolutions
draw one random value each, here `roll`; the comparison thresholds are the
exact `f32` values of `0.5`, `0.4`, `0.3`. -/
def handle_special_outcome (action : String) (gs : GameState) (roll : ℚ) : GameState :=
  if action = "negotiation" then
    if roll > 1 / 2 then gs.add_credits 250 else gs
  else if action = "race_rival" then
    if roll > 13421773 / 33554432 then (gs.add_reputation 30).add_credits 300
    else gs.add_reputation (-10)
  else if action = "ai_battle" then
    if roll > 10066330 / 33554432 then (gs.add_reputation 100).discover_exploit "AI_Slayer"
    else gs.increase_heat 50
  else gs

/-- Outcome phase of `handle_choice` (reached only when the cost phase did
not abort). -/
def apply_outcome (gs : GameState) (outcome : EventOutcome) (roll : ℚ) : GameState :=
  match outcome with
  | .GainCredits amount => gs.add_credits amount
  | .GainReputation amount => gs.add_reputation amount
  | .ReduceHeat amount => gs.decrease_heat amount
  | .IncreaseHeat amount => gs.increase_heat amount
  | .UnlockContent content => gs.unlock_tool content
  | .MaintainAccess => gs
  | .SafeExit => gs
  | .Special action => handle_special_outcome action gs roll

/-- Cost phase followed by outcome phase for one selected choice.  A
`Credits` cost that `spend_credits` refuses makes the whole resolution
return early (the Rust `return Ok(())`), skipping the outcome; the other
cost kinds never veto.  A `Reputation(n)` cost is applied as
`game_state.add_reputation(-n)` (clamped at 0), a `Heat(n)` cost as
`increase_heat(n)`, and a `Time(_)` cost only sleeps. -/
def resolve_choice (gs : GameState) (choice : EventChoice) (roll : ℚ) : GameState :=
  match choice.cost with
  | some (.Credits amount) =>
    let r := gs.spend_credits amount
    if r.2 then apply_outcome r.1 choice.outcome roll else r.1
  | some (.Reputation amount) => apply_outcome (gs.add_reputation (-amount)) choice.outcome roll
  | some (.Heat amount) => apply_outcome (gs.increase_heat amount) choice.outcome roll
  | some (.Time _) => apply_outcome gs choice.outcome roll
  | none => apply_outcome gs choice.outcome roll

/-- Remove the first element satisfying `p`, returning it and the remaining
list (the effect of `position` followed by `Vec::remove`). -/
def removeFirst (p : α → Bool) : List α → Option (α × List α)
  | [] => none
  | x :: xs =>
    if p x then some (x, xs)
    else (removeFirst p xs).map (fun r => (r.1, x :: r.2))

/-- `EventManager::handle_choice`.  The event is looked up by id in
`active_events` and — when found — removed immediately, before the cost
phase (source lines 338-339), so the removal happens on every found path;
an absent id or an out-of-range `choice_index` leaves the game state
untouched. -/
def EventManager.handle_choice (em : EventManager) (gs : GameState) (event_id : String)
    (choice_index : ℕ) (roll : ℚ) : EventManager × GameState :=
  match removeFirst (fun e => e.id == event_id) em.active_events with
  | none => (em, gs)
  | some (event, rest) =>
    ({ em with active_events := rest },
      match event.choices.get? choice_index with
      | none => gs
      | some choice => resolve_choice gs choice roll)

/-- The "trace_initiated" template of `generate_high_heat_event`'s pool
(its first choice costs `Credits(100)`). -/
def trace_initiated_event : RandomEvent :=
  { id := "trace_initiated"
    title := "TRACE INITIATED"
    description := "Security forces are attempting to trace your location!"
    event_type := .Threat
    severity := .Critical
    choices := [
      { label := "Deploy countermeasures", outcome := .ReduceHeat 30
        cost := some (.Credits 100) },
      { label := "Go dark immediately", outcome := .ReduceHeat 50
        cost := some (.Reputation 20) },
      { label := "Risk it", outcome := .IncreaseHeat 20, cost := none }]
    time_limit := some 30 }

/-- The "backdoor_found" template of `generate_opportunity_event`'s pool
(its third choice has no cost and outcome `GainReputation(25)`). -/
def backdoor_found_event : RandomEvent :=
  { id := "backdoor_found"
    title := "BACKDOOR DISCOVERED"
    description := "You've found an existing backdoor in the system"
    event_type := .Opportunity
    severity := .Medium
    choices := [
      { label := "Use the backdoor", outcome := .MaintainAccess, cost := none },
      { label := "Replace with your own", outcome := .Special "persistent_access"
        cost := some (.Heat 10) },
      { label := "Report and patch", outcome := .GainReputation 25, cost := none }]
    time_limit := none }

end CrimsonRedline

namespace CrimsonRedline

set_option maxHeartbeats 4000000 in
/-- Band bounds for `from_reputation` on non-negative inputs: the returned
tier's own requirement is at most `r`, and `r` lies strictly below the next
tier's requirement (when there is one). -/
lemma from_reputation_band (r : ℤ) (h0 : 0 ≤ r) :
    (ReputationLevel.from_reputation r).reputation_requirement ≤ r ∧
    ((ReputationLevel.from_reputation r).next_level_requirement.getD 0 ≤ r →
      (ReputationLevel.from_reputation r).next_level_requirement = none) := by
  unfold ReputationLevel.from_reputation
  split_ifs <;>
    simp only [ReputationLevel.reputation_requirement,
      ReputationLevel.next_level_requirement, Option.getD_some, Option.getD_none] <;>
    refine ⟨by omega, fun hub => ?_⟩ <;>
    first | trivial | (exfalso ; omega)

/-- Every tier's index is at most 10 (Mythical). -/
lemma idx_le_ten : ∀ l : ReputationLevel, l.idx ≤ 10 := by decide

/-- Every tier except Mythical has a next-level requirement. -/
lemma next_level_requirement_isSome :
    ∀ l : ReputationLevel, l.idx < 10 → l.next_level_requirement.isSome = true := by decide

/-- A strictly lower tier's next-level requirement is at most a higher tier's
own requirement: the bands are contiguous and ordered. -/
lemma next_le_requirement_of_idx_lt :
    ∀ l1 l2 : ReputationLevel, l1.idx < l2.idx →
      l1.next_level_requirement.getD 0 ≤ l2.reputation_requirement := by decide

/-- Monotonicity of `from_reputation` on non-negative inputs, in the tier
order given by `idx`. -/
lemma from_reputation_mono (r1 r2 : ℤ) (h1 : 0 ≤ r1) (h12 : r1 ≤ r2) :
    (ReputationLevel.from_reputation r1).idx ≤ (ReputationLevel.from_reputation r2).idx := by
  by_contra hcon
  push_neg at hcon
  have h2 : 0 ≤ r2 := le_trans h1 h12
  have hA1 := (from_reputation_band r1 h1).1
  have hlt10 : (ReputationLevel.from_reputation r2).idx < 10 := by
    have := idx_le_ten (ReputationLevel.from_reputation r1)
    omega
  have hsome := next_level_requirement_isSome _ hlt10
  obtain ⟨n2, hn2⟩ := Option.isSome_iff_exists.mp hsome
  have hub : r2 < n2 := by
    by_contra hge
    push_neg at hge
    have hnone := (from_reputation_band r2 h2).2 (by rw [hn2] ; simpa using hge)
    rw [hn2] at hnone
    exact Option.some_ne_none n2 hnone
  have hle := next_le_requirement_of_idx_lt _ _ hcon
  rw [hn2] at hle
  simp only [Option.getD_some] at hle
  omega

/-- C8: for all reputations `r1 ≤ r2` with `r1, r2 ≥ 0`,
`ReputationLevel::from_reputation(r1)` is a tier less than or equal to
`from_reputation(r2)` in the 11-tier order, and for every `r ≥ 0`,
`reputation_requirement(from_reputation(r)) ≤ r`. -/
theorem from_reputation_mono_and_requirement_le :
    (∀ r1 r2 : ℤ, 0 ≤ r1 → r1 ≤ r2 →
      (ReputationLevel.from_reputation r1).idx ≤ (ReputationLevel.from_reputation r2).idx) ∧
    (∀ r : ℤ, 0 ≤ r →
      (ReputationLevel.from_reputation r).reputation_requirement ≤ r) :=
  ⟨from_reputation_mono, fun r hr => (from_reputation_band r hr).1⟩

/-- Witness for C8 at the concrete pair `r1 = 40`, `r2 = 5200`. -/
theorem from_reputation_mono_and_requirement_le_witness :
    (ReputationLevel.from_reputation 40).idx ≤ (ReputationLevel.from_reputation 5200).idx ∧
    (ReputationLevel.from_reputation 5200).reputation_requirement ≤ 5200 :=
  ⟨from_reputation_mono_and_requirement_le.1 40 5200 (by decide) (by decide),
   from_reputation_mono_and_requirement_le.2 5200 (by decide)⟩

set_option maxHeartbeats 4000000 in
/-- C9: for every negative reputation value `r < 0`,
`ReputationLevel::from_reputation(r)` returns `Mythical` (the highest tier),
not `Nobody`: every range arm of the `match` has a non-negative lower bound,
so all negative inputs fall through to the `_ => Mythical` catch-all. -/
theorem from_reputation_neg_eq_Mythical (r : ℤ) (h : r < 0) :
    ReputationLevel.from_reputation r = ReputationLevel.Mythical := by
  unfold ReputationLevel.from_reputation
  split_ifs <;> first | rfl | (exfalso ; omega)

/-- Witness for C9 at `r = -1`. -/
theorem from_reputation_neg_eq_Mythical_witness :
    ReputationLevel.from_reputation (-1) = ReputationLevel.Mythical :=
  from_reputation_neg_eq_Mythical (-1) (by decide)

/-- `update_streak` only touches `streak`, `multiplier` and `last_action`:
reputation values and the cached level pass through unchanged. -/
lemma update_streak_preserves (m : ReputationManager) (w : Bool) :
    (m.update_streak w).current_reputation = m.current_reputation ∧
    (m.update_streak w).lifetime_reputation = m.lifetime_reputation ∧
    (m.update_streak w).level = m.level := by
  cases h : m.last_action <;> cases w <;>
    simp [ReputationManager.update_streak, h, ReputationManager.reset_streak]

/-- Counterexample to C1: `add_reputation` does not clamp at zero, so a
negative base amount drives `current_reputation` negative.  From
`ReputationManager::new(0)`, `add_reputation(-100)` leaves
`current_reputation = -100 < 0`. -/
theorem add_reputation_negative_counterexample :
    ((ReputationManager.new 0).add_reputation (-100) false).1.current_reputation = -100 ∧
    ((ReputationManager.new 0).add_reputation (-100) false).1.current_reputation < 0 := by
  have h : ((ReputationManager.new 0).add_reputation (-100) false).1.current_reputation
      = -100 := by
    simp only [ReputationManager.new, ReputationManager.add_reputation]
    rw [(update_streak_preserves _ _).1]
    norm_num [f32_as_i32, min_def, max_def]
  exact ⟨h, by rw [h] ; norm_num⟩

/-- C1 amended: after every `add_reputation`/`remove_reputation` call (hence
after every call of every sequence) `level` equals
`ReputationLevel::from_reputation(current_reputation)`, since both calls
recompute it; and `remove_reputation` always leaves
`current_reputation ≥ 0` (it clamps with `.max(0)`).  The original claim's
`current_reputation ≥ 0` after arbitrary calls is false, because
`add_reputation` does not clamp (see the counterexample). -/
theorem reputation_level_invariant_and_remove_nonneg :
    (∀ (m : ReputationManager) (c : RepCall),
      (RepCall.apply m c).level =
        ReputationLevel.from_reputation (RepCall.apply m c).current_reputation) ∧
    (∀ (m : ReputationManager) (amount : ℤ),
      0 ≤ (m.remove_reputation amount).current_reputation) := by
  constructor
  · intro m c
    cases c with
    | add base w =>
      simp only [RepCall.apply, ReputationManager.add_reputation]
      rw [(update_streak_preserves _ _).2.2, (update_streak_preserves _ _).1]
    | remove amount =>
      rfl
  · intro m amount
    exact le_max_right _ _

/-- Counterexample to C4: the applied delta is the `as i32` cast — truncation
toward zero — of `base * multiplier`, not `round(...)`.  A manager whose
streak reached 20 (multiplier `1.5`, exactly representable in `f32`) gains
only `1` from `add_reputation(1)`, while `round(1 * 1.5) = 2`. -/
theorem add_reputation_trunc_not_round_counterexample :
    (ReputationManager.add_reputation
      { current_reputation := 500, lifetime_reputation := 500
        level := ReputationLevel.Competent, multiplier := 3 / 2, streak := 20
        last_action := some () } 1 true).2 = 1 ∧
    rustRound ((1 : ℚ) * (3 / 2)) = 2 := by
  constructor
  · simp only [ReputationManager.add_reputation]
    norm_num [f32_as_i32, min_def, max_def]
  · norm_num [rustRound]

/-- C4 amended: for every base amount, `add_reputation` computes the applied
delta as the truncation toward zero (the `as i32` cast) of
`base * multiplier`, adds it to `current_reputation`, adds it to
`lifetime_reputation` exactly when the delta is `> 0`, and returns that
delta. -/
theorem add_reputation_trunc_spec (m : ReputationManager) (base : ℤ) (w : Bool) :
    (m.add_reputation base w).2 = f32_as_i32 ((base : ℚ) * m.multiplier) ∧
    (m.add_reputation base w).1.current_reputation =
      m.current_reputation + f32_as_i32 ((base : ℚ) * m.multiplier) ∧
    (m.add_reputation base w).1.lifetime_reputation =
      m.lifetime_reputation +
        (if 0 < f32_as_i32 ((base : ℚ) * m.multiplier)
          then f32_as_i32 ((base : ℚ) * m.multiplier) else 0) := by
  refine ⟨rfl, ?_, ?_⟩
  · simp only [ReputationManager.add_reputation]
    rw [(update_streak_preserves _ _).1]
    split <;> rfl
  · simp only [ReputationManager.add_reputation]
    rw [(update_streak_preserves _ _).2.1]
    split <;> simp [*]

/-- Counterexample to C2: `increase_heat` only clamps from above
(`.min(100.0)`), so a negative argument drives `heat_level` below `0.0`.
From a fresh state (heat `0`), `increase_heat(-50.0)` leaves heat `-50`. -/
theorem increase_heat_neg_counterexample :
    ((GameState.new "player" 0).increase_heat (-50)).heat_level = -50 ∧
    ¬ (0 ≤ ((GameState.new "player" 0).increase_heat (-50)).heat_level ∧
        ((GameState.new "player" 0).increase_heat (-50)).heat_level ≤ 100) := by
  constructor
  · norm_num [GameState.increase_heat, GameState.new, min_def]
  · intro h
    simp only [GameState.increase_heat, GameState.new, min_def] at h
    norm_num at h

/-- C2 amended: `increase_heat` clamps only from above and `decrease_heat`
only from below, so `heat_level` stays inside `[0, 100]` provided it starts
there and the argument is non-negative (arbitrary magnitude). -/
theorem heat_clamped_for_nonneg_amounts (gs : GameState) (amount : ℚ)
    (h0 : 0 ≤ gs.heat_level) (h100 : gs.heat_level ≤ 100) (ha : 0 ≤ amount) :
    (0 ≤ (gs.increase_heat amount).heat_level ∧
      (gs.increase_heat amount).heat_level ≤ 100) ∧
    (0 ≤ (gs.decrease_heat amount).heat_level ∧
      (gs.decrease_heat amount).heat_level ≤ 100) := by
  simp only [GameState.increase_heat, GameState.decrease_heat]
  refine ⟨⟨le_min (by linarith) (by norm_num), min_le_right _ _⟩,
          le_max_right _ _, max_le (by linarith) (by norm_num)⟩

/-- Witness for the amended C2 at a fresh state and `amount = 30`. -/
theorem heat_clamped_for_nonneg_amounts_witness :
    (0 ≤ ((GameState.new "player" 0).increase_heat 30).heat_level ∧
      ((GameState.new "player" 0).increase_heat 30).heat_level ≤ 100) ∧
    (0 ≤ ((GameState.new "player" 0).decrease_heat 30).heat_level ∧
      ((GameState.new "player" 0).decrease_heat 30).heat_level ≤ 100) :=
  heat_clamped_for_nonneg_amounts (GameState.new "player" 0) 30
    (by norm_num [GameState.new]) (by norm_num [GameState.new]) (by norm_num)

/-- C5: `spend_credits(amount)` returns `false` and leaves the state (hence
`credits`) unchanged when `amount > credits`; otherwise it returns `true` and
the only change is that `credits` decreases by exactly `amount`. -/
theorem spend_credits_spec (gs : GameState) (amount : ℤ) :
    (amount > gs.credits → gs.spend_credits amount = (gs, false)) ∧
    (amount ≤ gs.credits →
      gs.spend_credits amount = ({ gs with credits := gs.credits - amount }, true)) := by
  constructor
  · intro h
    simp only [GameState.spend_credits]
    rw [if_neg (by omega)]
  · intro h
    simp only [GameState.spend_credits]
    rw [if_pos (by omega)]

/-- C6: for every `Mission`, `get_completion_percentage()` equals
`(Σ min(progress, required)) / (Σ required) * 100`, and returns `0.0` when
the mission has no objectives or the total required is `0`. -/
theorem get_completion_percentage_spec (m : Mission) :
    m.get_completion_percentage =
      if m.objectives = [] ∨ (m.objectives.map (fun o => o.required)).sum = 0 then 0
      else ((((m.objectives.map (fun o => min o.progress o.required)).sum : ℕ) : ℚ) /
              (((m.objectives.map (fun o => o.required)).sum : ℕ) : ℚ)) * 100 := by
  by_cases he : m.objectives = []
  · simp [Mission.get_completion_percentage, he]
  · by_cases hr : (m.objectives.map (fun o => o.required)).sum = 0
    · simp only [Mission.get_completion_percentage, List.isEmpty_iff, he, hr, if_true,
        or_true, if_false]
    · simp only [Mission.get_completion_percentage, List.isEmpty_iff, he, hr, or_self,
        if_false, ite_false]

/-- C10: `update_objective` on a mission with an empty objectives list sets
`is_completed` (the `iter().all(...)` check is vacuously true on `[]`), for
any `objective_id` argument, even though `get_completion_percentage()` for
that mission returns `0.0`. -/
theorem update_objective_empty_completes (m : Mission) (objective_id : String)
    (progress : ℕ) (h : m.objectives = []) :
    (m.update_objective objective_id progress).is_completed = true ∧
    m.get_completion_percentage = 0 := by
  constructor
  · simp [Mission.update_objective, h, updateFirst]
  · simp [Mission.get_completion_percentage, h]

/-- Witness for C10 on a freshly constructed mission (empty objective list). -/
theorem update_objective_empty_completes_witness :
    ((Mission.new "TEST-001" "Test" "desc" MissionDifficulty.Easy 50).update_objective
        "obj_1" 3).is_completed = true ∧
    (Mission.new "TEST-001" "Test" "desc"
        MissionDifficulty.Easy 50).get_completion_percentage = 0 :=
  update_objective_empty_completes _ "obj_1" 3 rfl

/-- Witness for C5: spending 1500 from a fresh state (1000 credits) fails and
changes nothing; spending 400 succeeds and leaves 600 credits. -/
theorem spend_credits_spec_witness :
    (GameState.new "player" 0).spend_credits 1500 = (GameState.new "player" 0, false) ∧
    (GameState.new "player" 0).spend_credits 400 =
      ({ GameState.new "player" 0 with credits := 600 }, true) := by
  constructor
  · exact (spend_credits_spec (GameState.new "player" 0) 1500).1 (by norm_num [GameState.new])
  · exact (spend_credits_spec (GameState.new "player" 0) 400).2 (by norm_num [GameState.new])

/-- `spend_credits` on insufficient funds: `false`, state unchanged. -/
lemma spend_credits_of_lt (gs : GameState) (amount : ℤ) (h : gs.credits < amount) :
    gs.spend_credits amount = (gs, false) := by
  unfold GameState.spend_credits
  rw [if_neg (by omega)]

/-- C3: when `handle_choice` finds the event and the selected choice has cost
`Credits(n)` with `credits < n`, the event is still removed from
`active_events`, but the resolution aborts before the outcome phase: the
game state — in particular `credits` — is returned unchanged. -/
theorem handle_choice_insufficient_credits (em : EventManager) (gs : GameState)
    (event_id : String) (choice_index : ℕ) (roll : ℚ) (event : RandomEvent)
    (rest : List RandomEvent) (choice : EventChoice) (n : ℤ)
    (hfind : removeFirst (fun e => e.id == event_id) em.active_events = some (event, rest))
    (hget : event.choices.get? choice_index = some choice)
    (hcost : choice.cost = some (.Credits n))
    (hlt : gs.credits < n) :
    em.handle_choice gs event_id choice_index roll =
      ({ em with active_events := rest }, gs) := by
  simp only [EventManager.handle_choice, hfind, hget, resolve_choice, hcost,
    spend_credits_of_lt gs n hlt, Bool.false_eq_true, if_false]

/-- Witness for C3, the specification's scenario: a state seeded with 40
credits resolving the 100-credit choice of "trace_initiated".  The event is
consumed but credits remain 40 (the state is unchanged). -/
theorem handle_choice_insufficient_credits_witness :
    EventManager.handle_choice
        { active_events := [trace_initiated_event]
          event_history := [trace_initiated_event]
          event_chance := 13421773 / 134217728 }
        { GameState.new "player" 0 with credits := 40 } "trace_initiated" 0 0 =
      ({ active_events := []
         event_history := [trace_initiated_event]
         event_chance := 13421773 / 134217728 },
       { GameState.new "player" 0 with credits := 40 }) :=
  handle_choice_insufficient_credits _ _ _ _ _ trace_initiated_event []
    (trace_initiated_event.choices.get ⟨0, by decide⟩) 100
    (by decide) (by decide) (by decide) (by decide)

/-- If no element of `l` satisfies `p` (count zero), `removeFirst` finds
nothing. -/
lemma removeFirst_eq_none_of_countP_eq_zero (p : α → Bool) (l : List α)
    (h : l.countP p = 0) : removeFirst p l = none := by
  induction l with
  | nil => rfl
  | cons x xs ih =>
    rw [List.countP_cons] at h
    have hx : p x = false := by
      cases hpx : p x
      · rfl
      · rw [hpx] at h ; simp at h
    simp only [removeFirst, hx, Bool.false_eq_true, if_false]
    rw [ih (by omega)]
    rfl

/-- A successful `removeFirst` removes exactly one matching element. -/
lemma countP_of_removeFirst_some (p : α → Bool) (l rest : List α) (x : α)
    (h : removeFirst p l = some (x, rest)) :
    l.countP p = rest.countP p + 1 := by
  induction l generalizing rest x with
  | nil => exact Option.noConfusion h
  | cons y ys ih =>
    simp only [removeFirst] at h
    by_cases hy : p y = true
    · rw [if_pos hy] at h
      cases h
      rw [List.countP_cons, if_pos hy]
    · rw [if_neg hy] at h
      cases hr : removeFirst p ys with
      | none => rw [hr] at h ; exact Option.noConfusion h
      | some pr =>
        rw [hr] at h
        have h2 : some (pr.1, y :: pr.2) = some (x, rest) := h
        cases h2
        have hys := ih pr.2 pr.1 hr
        have hyf : p y = false := by
          cases hpy : p y
          · rfl
          · exact absurd hpy hy
        rw [List.countP_cons, List.countP_cons, hyf]
        simp only [Bool.false_eq_true, if_false, add_zero]
        omega

/-- C7 amended: if at most one event in `active_events` carries the given
id, then after `handle_choice` consumes it, a second `handle_choice` with
the same id has no effect on the `GameState` or the `EventManager` (the
resolved pair is a fixed point).  Without that uniqueness, a duplicated id
is resolved again (see the counterexample). -/
theorem handle_choice_second_resolution_noop (em : EventManager) (gs : GameState)
    (event_id : String) (i j : ℕ) (roll1 roll2 : ℚ)
    (huniq : em.active_events.countP (fun e => e.id == event_id) ≤ 1) :
    EventManager.handle_choice (em.handle_choice gs event_id i roll1).1
        (em.handle_choice gs event_id i roll1).2 event_id j roll2 =
      em.handle_choice gs event_id i roll1 := by
  cases hfind : removeFirst (fun e => e.id == event_id) em.active_events with
  | none =>
    simp only [EventManager.handle_choice, hfind]
  | some pr =>
    obtain ⟨event, rest⟩ := pr
    have hcount := countP_of_removeFirst_some _ _ _ _ hfind
    have hrest : rest.countP (fun e => e.id == event_id) = 0 := by omega
    have hnone := removeFirst_eq_none_of_countP_eq_zero _ _ hrest
    simp only [EventManager.handle_choice, hfind, hnone]

/-- Witness for the amended C7: one "backdoor_found" event, resolved and then
resolved again; the second call returns its input pair unchanged. -/
theorem handle_choice_second_resolution_noop_witness :
    EventManager.handle_choice
        (EventManager.handle_choice
          { active_events := [backdoor_found_event]
            event_history := [backdoor_found_event]
            event_chance := 13421773 / 134217728 }
          (GameState.new "player" 0) "backdoor_found" 2 0).1
        (EventManager.handle_choice
          { active_events := [backdoor_found_event]
            event_history := [backdoor_found_event]
            event_chance := 13421773 / 134217728 }
          (GameState.new "player" 0) "backdoor_found" 2 0).2 "backdoor_found" 1 0 =
      EventManager.handle_choice
        { active_events := [backdoor_found_event]
          event_history := [backdoor_found_event]
          event_chance := 13421773 / 134217728 }
        (GameState.new "player" 0) "backdoor_found" 2 0 :=
  handle_choice_second_resolution_noop _ _ _ 2 1 0 0 (by decide)

/-- Counterexample to C7 as stated for arbitrary manager states:
`generate_event` can push two events with the same id (the pools are fixed
templates), and then the second `handle_choice` with that id resolves the
duplicate instead of being a no-op.  With two copies of "backdoor_found"
pending and choice 2 (`GainReputation(25)`, no cost), the first resolution
raises reputation to 25 and the second to 50. -/
theorem handle_choice_duplicate_id_counterexample :
    ((EventManager.handle_choice
        { active_events := [backdoor_found_event, backdoor_found_event]
          event_history := [backdoor_found_event, backdoor_found_event]
          event_chance := 13421773 / 134217728 }
        (GameState.new "player" 0) "backdoor_found" 2 0).2.reputation = 25 ∧
      (EventManager.handle_choice
        (EventManager.handle_choice
          { active_events := [backdoor_found_event, backdoor_found_event]
            event_history := [backdoor_found_event, backdoor_found_event]
            event_chance := 13421773 / 134217728 }
          (GameState.new "player" 0) "backdoor_found" 2 0).1
        (EventManager.handle_choice
          { active_events := [backdoor_found_event, backdoor_found_event]
            event_history := [backdoor_found_event, backdoor_found_event]
            event_chance := 13421773 / 134217728 }
          (GameState.new "player" 0) "backdoor_found" 2 0).2
        "backdoor_found" 2 0).2.reputation = 50) ∧
    EventManager.handle_choice
        (EventManager.handle_choice
          { active_events := [backdoor_found_event, backdoor_found_event]
            event_history := [backdoor_found_event, backdoor_found_event]
            event_chance := 13421773 / 134217728 }
          (GameState.new "player" 0) "backdoor_found" 2 0).1
        (EventManager.handle_choice
          { active_events := [backdoor_found_event, backdoor_found_event]
            event_history := [backdoor_found_event, backdoor_found_event]
            event_chance := 13421773 / 134217728 }
          (GameState.new "player" 0) "backdoor_found" 2 0).2
        "backdoor_found" 2 0 ≠
      EventManager.handle_choice
        { active_events := [backdoor_found_event, backdoor_found_event]
          event_history := [backdoor_found_event, backdoor_found_event]
          event_chance := 13421773 / 134217728 }
        (GameState.new "player" 0) "backdoor_found" 2 0 := by
  refine ⟨⟨by decide, by decide⟩, fun hcontra => ?_⟩
  have hrep := congrArg (fun r => r.2.reputation) hcontra
  simp only at hrep
  rw [(by decide :
    (EventManager.handle_choice
      { active_events := [backdoor_found_event, backdoor_found_event]
        event_history := [backdoor_found_event, backdoor_found_event]
        event_chance := 13421773 / 134217728 }
      (GameState.new "player" 0) "backdoor_found" 2 0).2.reputation = 25)] at hrep
  revert hrep
  decide

end CrimsonRedline
